import Mathlib

/-!
Shallow embedding of the draft-order creation route
(`app/routes/api.create-draft-order.jsx`) and the dashboard loader of the
GITNetgains/draft repository, with theorems checking the repository's
natural-language specification against the code.

Conventions of the embedding:
* JS numbers used for prices and discount percentages are modelled as `ℚ`.
* JS `undefined`/absent fields are modelled as `Option`; JS truthiness of
  strings/numbers (empty string and `0` are falsy) is modelled explicitly by
  the `jsOrStr` / `jsTruthyNat` / `jsTruthyStrOpt` helpers.
* Outbound effects (the Shopify GraphQL fetch, the SMTP send, the database
  read) are modelled as explicit parameters of the functions that perform
  them, so the control flow of the route stays exactly as in the source.
-/

namespace DraftApp

/-- JS `s || d` for strings: the empty string is falsy. -/
def jsOrStr (s d : String) : String :=
  if s = "" then d else s

/-- JS `o?.field || d` where `o.field` is an optional string. -/
def jsOrOpt (o : Option String) (d : String) : String :=
  jsOrStr (o.getD "") d

/-- JS truthiness of an optional number (`customer?.id`): absent and `0` are falsy. -/
def jsTruthyNat (o : Option Nat) : Bool :=
  match o with
  | some n => n != 0
  | none => false

/-- JS truthiness of an optional string (`customer?.email`): absent and `""` are falsy. -/
def jsTruthyStrOpt (o : Option String) : Bool :=
  match o with
  | some s => s != ""
  | none => false

/-- JS `Number(x.toFixed(2))` for the rational values arising here: round to the
nearest hundredth (halves rounded up, which agrees with `toFixed` on the
non-negative values the route produces). -/
def toFixed2 (q : ℚ) : ℚ :=
  (round (q * 100) : ℚ) / 100

/-- The per-store settings row (Prisma `setting` model) as read and created by
`getCachedSettings`. -/
structure Setting where
  shop : String
  doubleDraftOrdersEnabled : Bool
  discount1 : ℚ
  discount2 : ℚ
  tag1 : String
  tag2 : String
  singleDiscount : ℚ
  singleTag : String
deriving Repr, DecidableEq

/-- One entry of `cart.items` in the request body. `original_price`,
`final_price` and `total_discount` are in cents, as sent by the storefront.
`discounts` holds the titles of the per-item discount descriptors
(`item.discounts`); only the first title is consulted by the route. -/
structure CartItem where
  variant_id : Nat
  quantity : Nat
  original_price : ℚ
  final_price : ℚ
  total_discount : ℚ
  discounts : List String
deriving Repr, DecidableEq

/-- The `cart` object of the request body. -/
structure Cart where
  items : List CartItem
  currency : String
deriving Repr, DecidableEq

/-- The `customer` object of the request body; every field may be absent. -/
structure Customer where
  id : Option Nat
  email : Option String
  first_name : Option String
  last_name : Option String
deriving Repr, DecidableEq

/-- The `address` / `billingAddress` objects of the request body; every field
may be absent. -/
structure AddressIn where
  address1 : Option String
  apartment : Option String
  city : Option String
  state : Option String
  country : Option String
  pin : Option String
  company : Option String
deriving Repr, DecidableEq

/-- A shipping/billing address block of a DraftOrderInput: all fields are
plain strings (missing inputs become `""`). -/
structure AddressInput where
  firstName : String
  lastName : String
  address1 : String
  address2 : String
  city : String
  province : String
  country : String
  zip : String
  company : String
deriving Repr, DecidableEq

/-- A percentage discount block (`appliedDiscount`) of a draft-order input. -/
structure AppliedDiscount where
  title : String
  description : String
  value : ℚ
  valueType : String
deriving Repr, DecidableEq

/-- The `priceOverride` block of a line item. -/
structure PriceOverride where
  amount : ℚ
  currencyCode : String
deriving Repr, DecidableEq

/-- One element of the `lineItems` array composed by the action.
`appliedDiscount = none` models the field being `undefined` (absent). -/
structure LineItemInput where
  quantity : Nat
  variantId : String
  priceOverride : PriceOverride
  appliedDiscount : Option AppliedDiscount
deriving Repr, DecidableEq

/-- The customer association of a draft-order input: the source spreads either
`{ customerId }`, or `{ email }`, or nothing at all into the input. -/
inductive CustomerField where
  | byId (gid : String)
  | byEmail (e : String)
  | absent
deriving Repr, DecidableEq

/-- A DraftOrderInput as composed by `createDraft`.
`appliedDiscount = none` models the order-level discount field being absent. -/
structure DraftOrderInput where
  visibleToCustomer : Bool
  lineItems : List LineItemInput
  note : String
  tags : List String
  shippingAddress : AddressInput
  billingAddress : AddressInput
  customerField : CustomerField
  appliedDiscount : Option AppliedDiscount
deriving Repr, DecidableEq

/-- The provenance note attached to every draft order the action creates
(`note: "Created via Draft Order App"` in `createDraft`). -/
def draftOrderNote : String := "Created via Draft Order App"

/-- The note string by which the dashboard counts app-created draft orders:
the GraphQL query in `fetchDraftOrdersCount` filters draft orders with
`note:` equal to this string. -/
def dashboardCountNote : String := "Created via Draft App"

/-- The per-item mapping of the action (`cart.items.map(...)`, lines 121-140):
converts cents to currency units, computes the percentage off from the price
delta, and attaches it as a percentage discount only when the recorded
`total_discount` is positive. -/
def mkLineItem (currency : String) (item : CartItem) : LineItemInput :=
  let original := item.original_price / 100
  let final := item.final_price / 100
  let percentageOff := if original > 0 then (original - final) / original * 100 else 0
  { quantity := item.quantity
    variantId := "gid://shopify/ProductVariant/" ++ toString item.variant_id
    priceOverride := { amount := original, currencyCode := currency }
    appliedDiscount :=
      if item.total_discount > 0 then
        some { title := jsOrOpt item.discounts.head? "Discount"
               description := ""
               value := toFixed2 percentageOff
               valueType := "PERCENTAGE" }
      else none }

/-- The `shippingAddress` object built by the action: every field defaults to
`""` when the input is missing. -/
def mkShippingAddress (customer : Customer) (address : AddressIn) : AddressInput :=
  { firstName := jsOrOpt customer.first_name ""
    lastName := jsOrOpt customer.last_name ""
    address1 := jsOrOpt address.address1 ""
    address2 := jsOrOpt address.apartment ""
    city := jsOrOpt address.city ""
    province := jsOrOpt address.state ""
    country := jsOrOpt address.country ""
    zip := jsOrOpt address.pin ""
    company := jsOrOpt address.company "" }

/-- The `billingAddressInput` of the action: the shipping address verbatim when
`useShipping` is set, otherwise built the same way from `billingAddress`. -/
def mkBillingAddress (customer : Customer) (address : AddressIn)
    (billingAddress : AddressIn) (useShipping : Bool) : AddressInput :=
  if useShipping then mkShippingAddress customer address
  else mkShippingAddress customer billingAddress

/-- The customer association chosen by `createDraft`: a customer-id reference
when a (truthy) id is present, else a bare email when (truthy) present, else
nothing. -/
def mkCustomerField (customer : Customer) : CustomerField :=
  if jsTruthyNat customer.id then
    .byId ("gid://shopify/Customer/" ++ toString (customer.id.getD 0))
  else if jsTruthyStrOpt customer.email then
    .byEmail (customer.email.getD "")
  else .absent

/-- The `input` object built inside `createDraft` (lines 201-222): line items,
fixed provenance note, tag list, addresses, optional customer reference, and
an order-level percentage discount only when `discount > 0`. -/
def mkDraftOrderInput (lineItems : List LineItemInput)
    (shippingAddress billingAddressInput : AddressInput) (customer : Customer)
    (discount : ℚ) (label : String) (tag : String) : DraftOrderInput :=
  { visibleToCustomer := false
    lineItems := lineItems
    note := draftOrderNote
    tags := if tag = "" then [] else [tag]
    shippingAddress := shippingAddress
    billingAddress := billingAddressInput
    customerField := mkCustomerField customer
    appliedDiscount :=
      if discount > 0 then
        some { title := label, description := label
               value := discount, valueType := "PERCENTAGE" }
      else none }

/-- Whether the action takes the double-order branch: the compound predicate
`setting.doubleDraftOrdersEnabled && setting.discount1 > 0 && setting.discount2 > 0`. -/
def doubleModeActive (setting : Setting) : Prop :=
  setting.doubleDraftOrdersEnabled = true ∧ 0 < setting.discount1 ∧ 0 < setting.discount2

instance (setting : Setting) : Decidable (doubleModeActive setting) := by
  unfold doubleModeActive; infer_instance

/-- The draft-order inputs the action submits, in submission order (the
double branch submits the discount2/tag2 half first, then the
discount1/tag1 half; the single branch submits one input with the
single-mode discount and tag). `setting.tag2 || ""`, `setting.tag1 || ""`
and `setting.singleDiscount || 0`, `setting.singleTag || ""` from the source
are identities on the already-defaulted fields and are written as the plain
fields here. -/
def composeDraftOrderInputs (setting : Setting) (cart : Cart)
    (customer : Customer) (address billingAddress : AddressIn)
    (useShipping : Bool) : List DraftOrderInput :=
  let lineItems := cart.items.map (mkLineItem cart.currency)
  let shippingAddress := mkShippingAddress customer address
  let billingAddressInput := mkBillingAddress customer address billingAddress useShipping
  if doubleModeActive setting then
    [mkDraftOrderInput lineItems shippingAddress billingAddressInput customer
       setting.discount2 "FINAL60" setting.tag2,
     mkDraftOrderInput lineItems shippingAddress billingAddressInput customer
       setting.discount1 "PAYNOW40" setting.tag1]
  else
    [mkDraftOrderInput lineItems shippingAddress billingAddressInput customer
       setting.singleDiscount "Your Discount" setting.singleTag]

/-- The per-line discount formula as the specification states it, over the raw
cent prices of the payload: `(originalPrice - finalPrice) / originalPrice * 100`
when `originalPrice > 0`, else `0`. -/
def claimPercentOff (item : CartItem) : ℚ :=
  if 0 < item.original_price then
    (item.original_price - item.final_price) / item.original_price * 100
  else 0

/-- A customer with no fields, used as a concrete input in witnesses. -/
def sampleCustomer : Customer :=
  { id := none, email := none, first_name := none, last_name := none }

/-- An address with no fields, used as a concrete input in witnesses. -/
def sampleAddressIn : AddressIn :=
  { address1 := none, apartment := none, city := none, state := none,
    country := none, pin := none, company := none }

/-- A one-item cart used as a concrete input in witnesses. -/
def sampleCart : Cart :=
  { items := [{ variant_id := 1, quantity := 1, original_price := 1000,
                final_price := 1000, total_discount := 0, discounts := [] }],
    currency := "USD" }

/-- A settings row with double mode enabled and both discounts positive. -/
def sampleSettingDouble : Setting :=
  { shop := "s.myshopify.com", doubleDraftOrdersEnabled := true,
    discount1 := 40, discount2 := 60, tag1 := "t1", tag2 := "t2",
    singleDiscount := 10, singleTag := "st" }

/-- A settings row in single mode whose single discount is zero. -/
def sampleSettingSingleZero : Setting :=
  { shop := "s.myshopify.com", doubleDraftOrdersEnabled := false,
    discount1 := 40, discount2 := 60, tag1 := "t1", tag2 := "t2",
    singleDiscount := 0, singleTag := "" }

/-- Money block of a created draft order (`shopMoney { amount currencyCode }`). -/
structure Money where
  amount : ℚ
  currencyCode : String
deriving Repr, DecidableEq

/-- One line-item node of a created draft order, as selected by the
draftOrderCreate mutation (each GraphQL `edges { node ... }` entry,
flattened). -/
structure DraftLineItemNode where
  title : String
  quantity : Nat
  variantTitle : Option String
  variantImageUrl : Option String
  originalUnitPrice : Money
deriving Repr, DecidableEq

/-- A created draft order as projected by the mutation's selection set. -/
structure CreatedDraft where
  id : String
  name : String
  invoiceUrl : String
  totalPrice : Money
  lineItems : List DraftLineItemNode
deriving Repr, DecidableEq

/-- A `userErrors { field message }` entry of the create mutation. -/
structure UserError where
  field : String
  message : String
deriving Repr, DecidableEq

/-- The `draftOrderCreate` payload inside a parsed GraphQL response body. -/
structure DraftOrderCreatePayload where
  draftOrder : Option CreatedDraft
  userErrors : List UserError
deriving Repr, DecidableEq

/-- A parsed GraphQL response body. `errors = some l` models a present
top-level `errors` field (a present array is truthy in JS even when empty,
and the top-level error objects are modelled by their JSON strings);
`dataField = none` models `data` being absent/null or lacking
`draftOrderCreate`, either of which makes the route's final property access
throw a TypeError. -/
structure GraphQLBody where
  errors : Option (List String)
  dataField : Option DraftOrderCreatePayload
deriving Repr, DecidableEq

/-- The observable outcome of the `fetch` + `res.json()` pair inside
`createDraft`: the network call may reject, the body may fail to parse, or a
parsed body is available together with the HTTP status code. -/
inductive FetchOutcome where
  | networkError (msg : String)
  | jsonError (status : Nat) (msg : String)
  | response (status : Nat) (body : GraphQLBody)
deriving Repr, DecidableEq

/-- How `createDraft` can throw. `transport` covers a rejected `fetch` or a
body that fails to parse; `serialized` is the route's own
`throw new Error(JSON.stringify(err))` carrying either the top-level error
list or the user-error list; `typeError` is the TypeError raised by
`data.data.draftOrderCreate.draftOrder` when the data chain is missing. -/
inductive CreateDraftError where
  | transport (msg : String)
  | serialized (err : List String ⊕ List UserError)
  | typeError
deriving Repr, DecidableEq

/-- A JSON string literal. -/
def quoteJson (s : String) : String := "\"" ++ s ++ "\""

/-- JSON.stringify of a top-level error list (errors modelled as strings). -/
def stringifyErrors (errs : List String) : String :=
  "[" ++ String.intercalate "," (errs.map quoteJson) ++ "]"

/-- JSON.stringify of one `userErrors` entry. -/
def stringifyUserError (u : UserError) : String :=
  "\x7b\"field\":" ++ quoteJson u.field ++ ",\"message\":" ++ quoteJson u.message ++ "\x7d"

/-- JSON.stringify of a `userErrors` list. -/
def stringifyUserErrors (errs : List UserError) : String :=
  "[" ++ String.intercalate "," (errs.map stringifyUserError) ++ "]"

/-- The `error.message` of each `createDraft` failure as observed by the
action's catch handler. -/
def CreateDraftError.message : CreateDraftError → String
  | .transport m => m
  | .serialized (.inl errs) => stringifyErrors errs
  | .serialized (.inr errs) => stringifyUserErrors errs
  | .typeError => "Cannot read properties of undefined"

/-- The error-handling skeleton of `createDraft` (lines 224-238): the response
body is parsed unconditionally — the HTTP status code is never inspected —
then a present top-level `errors` field, or otherwise a non-empty
`userErrors` list, raises the serialized detail; a missing data chain raises
a TypeError at the final property access. On success the mutation's
`draftOrder` (possibly null) is returned. -/
def createDraftResult (outcome : FetchOutcome) :
    Except CreateDraftError (Option CreatedDraft) :=
  match outcome with
  | .networkError m => .error (.transport m)
  | .jsonError _ m => .error (.transport m)
  | .response _ body =>
    match body.errors with
    | some errs => .error (.serialized (.inl errs))
    | none =>
      match body.dataField with
      | some payload =>
        if payload.userErrors.isEmpty then .ok payload.draftOrder
        else .error (.serialized (.inr payload.userErrors))
      | none => .error .typeError

/-- The request body after successful JSON parsing
(`{ customer, cart, address, billingAddress, useShipping }`). -/
structure Body where
  customer : Customer
  cart : Option Cart
  address : AddressIn
  billingAddress : AddressIn
  useShipping : Bool
deriving Repr, DecidableEq

/-- A JSON response of the action, restricted to the fields the claims
mention (the source's `timing` diagnostic field is omitted). Absent JSON
fields are `none`; `emailError = some none` models the field present with
value null. -/
structure ActionResponse where
  status : Nat
  headers : List (String × String)
  success : Option Bool
  error : Option String
  drafts : Option (List CreatedDraft)
  emailSent : Option Bool
  emailError : Option (Option String)
deriving Repr, DecidableEq

/-- `getCorsHeaders`: the CORS headers attached to responses of the route; the
allow-origin value echoes the request's Origin header (`origin || "*"`). -/
def getCorsHeaders (origin : Option String) : List (String × String) :=
  [("Access-Control-Allow-Origin", jsOrOpt origin "*"),
   ("Access-Control-Allow-Methods", "POST, OPTIONS"),
   ("Access-Control-Allow-Headers", "Content-Type, Authorization"),
   ("Vary", "Origin")]

/-- `sendError`: a failure JSON response carrying the CORS headers. -/
def sendError (origin : Option String) (message : String) (status : Nat) :
    ActionResponse :=
  { status := status, headers := getCorsHeaders origin,
    success := some false, error := some message,
    drafts := none, emailSent := none, emailError := none }

/-- The effects of one request to the action, abstracted: the request's Origin
header, whether the two environment variables are configured, the JSON parse
result of the body (`none` models `request.json()` throwing), the settings
row the cached read returns, the outcome of each awaited `createDraft` call
(keyed by the submitted input; `.error m` models the promise rejecting with
an error whose message is `m`), and the outcome of the awaited email send
(`.error m` models `sendEmailAsync` throwing with message `m`). -/
structure ActionEnv where
  origin : Option String
  configOk : Bool
  parsedBody : Option Body
  setting : Setting
  create : DraftOrderInput → Except String CreatedDraft
  emailOutcome : Except String Unit

/-- `Promise.all` over the submitted creations: the created orders in
submission order when every call resolves, else the message of a rejected
call (deterministically the left-most here; no claim depends on which of two
simultaneous rejections is surfaced). -/
def createAll (create : DraftOrderInput → Except String CreatedDraft) :
    List DraftOrderInput → Except String (List CreatedDraft)
  | [] => .ok []
  | i :: rest =>
    match create i, createAll create rest with
    | .ok d, .ok ds => .ok (d :: ds)
    | .error m, _ => .error m
    | .ok _, .error m => .error m

/-- The route's `action`, with effects supplied by `env`: configuration check,
body parse, empty-cart check (`!cart?.items?.length`), settings read,
single/double composition and creation, then the awaited email send whose
failure is captured into `emailError` without changing the success
response. A creation failure is caught and answered with a 500 carrying the
error's message. -/
def action (env : ActionEnv) : ActionResponse :=
  if env.configOk = false then sendError env.origin "Server configuration error" 500
  else
    match env.parsedBody with
    | none => sendError env.origin "Invalid JSON in request body" 400
    | some body =>
      match body.cart with
      | none => sendError env.origin "Cart is empty" 400
      | some cart =>
        if cart.items.isEmpty then sendError env.origin "Cart is empty" 400
        else
          match createAll env.create (composeDraftOrderInputs env.setting cart
              body.customer body.address body.billingAddress body.useShipping) with
          | .error m => sendError env.origin m 500
          | .ok createdOrders =>
            let emailPair : Bool × Option String :=
              if jsTruthyStrOpt body.customer.email then
                match env.emailOutcome with
                | .ok _ => (true, none)
                | .error m => (false, some m)
              else (false, none)
            { status := 200, headers := getCorsHeaders env.origin,
              success := some true, error := none,
              drafts := some createdOrders,
              emailSent := some emailPair.1, emailError := some emailPair.2 }

/-- A plain response as produced by the route's `loader` (status, headers, and
an optional text body). -/
structure LoaderResponse where
  status : Nat
  headers : List (String × String)
  body : Option String
deriving Repr, DecidableEq

/-- The route's `loader`: 204 with the CORS headers for OPTIONS, else a bare
405 response constructed with no headers at all. -/
def loader (method : String) (origin : Option String) : LoaderResponse :=
  if method = "OPTIONS" then
    { status := 204, headers := getCorsHeaders origin, body := none }
  else
    { status := 405, headers := [], body := some "Method Not Allowed" }

/-- The module-level cache slot (`settingsCache`, `settingsCacheTime`); time
is in milliseconds. -/
structure CacheState where
  settingsCache : Option Setting
  settingsCacheTime : Nat
deriving Repr, DecidableEq

/-- `CACHE_TTL`: five minutes in milliseconds. -/
def CACHE_TTL : Nat := 5 * 60 * 1000

/-- The settings row created on first access: the shop key with zero-value
defaults, as in the `db.setting.create` call of `getCachedSettings`. -/
def defaultSetting (shop : String) : Setting :=
  { shop := shop, doubleDraftOrdersEnabled := false, discount1 := 0,
    discount2 := 0, tag1 := "", tag2 := "", singleDiscount := 0, singleTag := "" }

/-- The settings table of the database, keyed by shop. -/
def Db : Type := String → Option Setting

/-- The `findUnique` / `create` pair of `getCachedSettings`: the stored row
when present, else a freshly created row with zero-value defaults. -/
def dbFetchOrCreate (db : Db) (shop : String) : Setting :=
  match db shop with
  | some s => s
  | none => defaultSetting shop

/-- Result of one `getCachedSettings` call: the returned settings, the cache
slot afterwards, and how many fetch-or-create round trips to the settings
store were performed. -/
structure CacheGetResult where
  setting : Setting
  state : CacheState
  storeLookups : Nat
deriving Repr, DecidableEq

/-- `getCachedSettings` (lines 14-40): return the cached row unchanged when it
is for the requested shop and younger than `CACHE_TTL`; otherwise
fetch-or-create from the store, stamp the cache with `now`, and return the
fresh row. -/
def getCachedSettings (db : Db) (st : CacheState) (now : Nat) (shop : String) :
    CacheGetResult :=
  match st.settingsCache with
  | some cached =>
    if cached.shop = shop ∧ now - st.settingsCacheTime < CACHE_TTL then
      { setting := cached, state := st, storeLookups := 0 }
    else
      let s := dbFetchOrCreate db shop
      { setting := s,
        state := { settingsCache := some s, settingsCacheTime := now },
        storeLookups := 1 }
  | none =>
    let s := dbFetchOrCreate db shop
    { setting := s,
      state := { settingsCache := some s, settingsCacheTime := now },
      storeLookups := 1 }

/-- The fixed order message of the email template (the source's
`hasMultipleOrders` ternary has the identical string in both branches). -/
def emailOrderMessage : String :=
  "Your order has been received. Thank you for choosing the Partial Payment option (40% now / 60% later). We will send the invoice for the initial 40% payment shortly, and the remaining 60% will be invoiced at the time of shipping. Please stay active on your email to receive regular updates about your order."

/-- The dynamic interpolation slots of the `html` template literal in
`sendEmailAsync`, in their order of appearance; the fixed HTML text between
slots is not modelled. The slots are: the greeting name
(`customer?.first_name || "there"`), the order message, and — only when more
than one order was created — the conditional partial-payment section with its
two order names (`order40.name`, i.e. `orders[1]`, then `order60.name`, i.e.
`orders[0]`). Neither the `itemsHtml` string built at lines 323-339 nor any
order's `invoiceUrl` appears among the template's interpolations. -/
def emailHtmlSlots (customer : Customer) (orders : List CreatedDraft) :
    List String :=
  [jsOrOpt customer.first_name "there", emailOrderMessage] ++
  (match orders with
   | o60 :: o40 :: _ => [o40.name, o60.name]
   | _ => [])

/-- A concrete created draft order used in witnesses and counterexamples. -/
def sampleDraft : CreatedDraft :=
  { id := "gid://shopify/DraftOrder/1", name := "#D1",
    invoiceUrl := "https://s.myshopify.com/invoice/1",
    totalPrice := { amount := 100, currencyCode := "USD" },
    lineItems := [{ title := "Case", quantity := 1, variantTitle := none,
                    variantImageUrl := none,
                    originalUnitPrice := { amount := 100, currencyCode := "USD" } }] }

/-- A concrete request body whose cart has an empty items list. -/
def emptyCartBody : Body :=
  { customer := sampleCustomer, cart := some { items := [], currency := "USD" },
    address := sampleAddressIn, billingAddress := sampleAddressIn,
    useShipping := true }

/-- A concrete environment delivering `emptyCartBody`. -/
def emptyCartEnv : ActionEnv :=
  { origin := some "https://store.example", configOk := true,
    parsedBody := some emptyCartBody, setting := sampleSettingDouble,
    create := fun _ => .error "unused", emailOutcome := .ok () }

/-- A concrete request body with a non-empty cart and a customer email. -/
def emailFailBody : Body :=
  { customer := { id := none, email := some "c@example.com",
                  first_name := some "Pat", last_name := none },
    cart := some sampleCart, address := sampleAddressIn,
    billingAddress := sampleAddressIn, useShipping := true }

/-- A concrete environment where the single creation resolves and the email
send throws. -/
def emailFailEnv : ActionEnv :=
  { origin := none, configOk := true, parsedBody := some emailFailBody,
    setting := sampleSettingSingleZero, create := fun _ => .ok sampleDraft,
    emailOutcome := .error "SMTP timed out" }

/-- A concrete request body with a non-empty cart and no customer email. -/
def createFailBody : Body :=
  { customer := sampleCustomer, cart := some sampleCart,
    address := sampleAddressIn, billingAddress := sampleAddressIn,
    useShipping := false }

/-- A concrete environment whose creation call rejects. -/
def createFailEnv : ActionEnv :=
  { origin := none, configOk := true, parsedBody := some createFailBody,
    setting := sampleSettingSingleZero,
    create := fun _ => .error "upstream rejected", emailOutcome := .ok () }

/- ======================================================================
   Theorems
   ====================================================================== -/

/-- C1: two draft-order inputs exactly when double mode is enabled and both
discounts are strictly positive; otherwise exactly one with the single-mode
discount and tag. -/
theorem mode_selection_spec (setting : Setting) (cart : Cart)
    (customer : Customer) (address billingAddress : AddressIn) (useShipping : Bool) :
    let inputs := composeDraftOrderInputs setting cart customer address billingAddress useShipping
    let lineItems := cart.items.map (mkLineItem cart.currency)
    let ship := mkShippingAddress customer address
    let bill := mkBillingAddress customer address billingAddress useShipping
    ((inputs.length = 2 ↔ doubleModeActive setting) ∧
     (inputs.length = 1 ↔ ¬ doubleModeActive setting)) ∧
    (doubleModeActive setting →
      inputs =
        [mkDraftOrderInput lineItems ship bill customer setting.discount2 "FINAL60" setting.tag2,
         mkDraftOrderInput lineItems ship bill customer setting.discount1 "PAYNOW40" setting.tag1]) ∧
    (¬ doubleModeActive setting →
      inputs =
        [mkDraftOrderInput lineItems ship bill customer setting.singleDiscount
          "Your Discount" setting.singleTag]) := by
  unfold composeDraftOrderInputs
  by_cases h : doubleModeActive setting <;> simp [h]

/-- C1 witness: a concrete double-mode setting yields two inputs, evaluated via
the theorem. -/
theorem mode_selection_spec_witness :
    (composeDraftOrderInputs sampleSettingDouble sampleCart sampleCustomer
      sampleAddressIn sampleAddressIn true).length = 2 := by
  exact (mode_selection_spec sampleSettingDouble sampleCart sampleCustomer
    sampleAddressIn sampleAddressIn true).1.1.mpr
    (by refine ⟨rfl, ?_, ?_⟩ <;> norm_num [sampleSettingDouble])

/-- The division by 100 performed by the code before taking the price ratio
cancels: the code's percentage equals the specification's formula over the
raw cent prices. -/
theorem code_percent_eq_claim (item : CartItem) :
    (if item.original_price / 100 > 0 then
       (item.original_price / 100 - item.final_price / 100) /
         (item.original_price / 100) * 100
     else 0) = claimPercentOff item := by
  unfold claimPercentOff
  have hiff : (0 : ℚ) < item.original_price / 100 ↔ 0 < item.original_price := by
    constructor <;> intro h <;> linarith
  by_cases h : 0 < item.original_price
  · rw [if_pos (hiff.mpr h), if_pos h]
    have ho : item.original_price ≠ 0 := ne_of_gt h
    field_simp
  · rw [if_neg (by simpa [hiff] using h), if_neg h]

/-- C2: the composed line carries a percentage discount equal to the claim's
formula rounded to two decimals, and the discount block is present exactly
when the recorded `total_discount` is strictly positive; when it is not, the
field is entirely absent. -/
theorem line_item_discount_spec (currency : String) (item : CartItem) :
    ((mkLineItem currency item).appliedDiscount.isSome ↔ 0 < item.total_discount) ∧
    (0 < item.total_discount →
      (mkLineItem currency item).appliedDiscount = some
        { title := jsOrOpt item.discounts.head? "Discount", description := "",
          value := toFixed2 (claimPercentOff item), valueType := "PERCENTAGE" }) ∧
    (item.total_discount ≤ 0 → (mkLineItem currency item).appliedDiscount = none) := by
  have key : (mkLineItem currency item).appliedDiscount =
      if 0 < item.total_discount then
        some { title := jsOrOpt item.discounts.head? "Discount", description := "",
               value := toFixed2 (claimPercentOff item), valueType := "PERCENTAGE" }
      else none := by
    simp only [mkLineItem]
    rw [code_percent_eq_claim item]
  refine ⟨?_, ?_, ?_⟩ <;> rw [key]
  · by_cases h : 0 < item.total_discount <;> simp [h]
  · intro h; rw [if_pos h]
  · intro h; rw [if_neg (not_lt.mpr h)]

/-- C2 witness: the specification's example — `original_price = 1000`,
`final_price = 800`, `total_discount = 1` — yields a present discount of
value `20`. -/
theorem line_item_discount_spec_witness :
    (mkLineItem "USD"
      { variant_id := 5, quantity := 2, original_price := 1000,
        final_price := 800, total_discount := 1, discounts := [] }).appliedDiscount =
      some { title := "Discount", description := "",
             value := 20, valueType := "PERCENTAGE" } := by
  have h := (line_item_discount_spec "USD"
    { variant_id := 5, quantity := 2, original_price := 1000,
      final_price := 800, total_discount := 1, discounts := [] }).2.1 (by norm_num)
  rw [h]
  norm_num [claimPercentOff, toFixed2, round_eq, jsOrOpt, jsOrStr]

/-- C10: whenever the discount handed to `createDraft` is not strictly
positive, the composed input omits the order-level `appliedDiscount` entirely
while all other fields are produced as usual; in particular, in single mode
with a non-positive `singleDiscount` the one produced input has no
order-level discount. -/
theorem order_discount_absent_when_nonpositive
    (lineItems : List LineItemInput) (ship bill : AddressInput) (customer : Customer)
    (discount : ℚ) (label tag : String) (setting : Setting) (cart : Cart)
    (address billingAddress : AddressIn) (useShipping : Bool) :
    (discount ≤ 0 →
      mkDraftOrderInput lineItems ship bill customer discount label tag =
        { visibleToCustomer := false, lineItems := lineItems, note := draftOrderNote,
          tags := if tag = "" then [] else [tag], shippingAddress := ship,
          billingAddress := bill, customerField := mkCustomerField customer,
          appliedDiscount := none }) ∧
    (¬ doubleModeActive setting → setting.singleDiscount ≤ 0 →
      composeDraftOrderInputs setting cart customer address billingAddress useShipping =
        [{ visibleToCustomer := false,
           lineItems := cart.items.map (mkLineItem cart.currency),
           note := draftOrderNote,
           tags := if setting.singleTag = "" then [] else [setting.singleTag],
           shippingAddress := mkShippingAddress customer address,
           billingAddress := mkBillingAddress customer address billingAddress useShipping,
           customerField := mkCustomerField customer,
           appliedDiscount := none }]) := by
  constructor
  · intro h
    unfold mkDraftOrderInput
    rw [if_neg (not_lt.mpr h)]
  · intro hdm h
    unfold composeDraftOrderInputs
    rw [if_neg hdm]
    unfold mkDraftOrderInput
    rw [if_neg (not_lt.mpr h)]

/-- C10 witness: in single mode with `singleDiscount = 0` the one produced
input carries no order-level discount. -/
theorem order_discount_absent_witness :
    (composeDraftOrderInputs sampleSettingSingleZero sampleCart sampleCustomer
      sampleAddressIn sampleAddressIn true).map (fun i => i.appliedDiscount) = [none] := by
  have h := (order_discount_absent_when_nonpositive [] (mkShippingAddress sampleCustomer sampleAddressIn)
    (mkShippingAddress sampleCustomer sampleAddressIn) sampleCustomer 0 "" ""
    sampleSettingSingleZero sampleCart sampleAddressIn sampleAddressIn true).2
    (by intro hd; exact absurd hd.1 (by norm_num [sampleSettingSingleZero]))
    (by norm_num [sampleSettingSingleZero])
  rw [h]
  rfl

/-- C3: every input the action composes carries the fixed provenance note
`Created via Draft Order App`, but the dashboard counts draft orders whose
note is `Created via Draft App` — a different string that is not even a
substring of the attached note, so the count filter does not match the
orders this system creates. -/
theorem provenance_note_mismatch (setting : Setting) (cart : Cart)
    (customer : Customer) (address billingAddress : AddressIn) (useShipping : Bool) :
    ((composeDraftOrderInputs setting cart customer address billingAddress
        useShipping).all (fun i => i.note == draftOrderNote)) = true ∧
    (draftOrderNote == dashboardCountNote) = false ∧
    decide (dashboardCountNote.toList <:+: draftOrderNote.toList) = false := by
  refine ⟨?_, by decide, by decide⟩
  by_cases h : doubleModeActive setting <;>
    simp [composeDraftOrderInputs, h, mkDraftOrderInput]

/-- C9: a parsed POST body whose cart is absent or has no items yields a 400
response with `success:false` and error `Cart is empty`. -/
theorem empty_cart_400 (env : ActionEnv) (body : Body) :
    env.configOk = true → env.parsedBody = some body →
    (body.cart = none ∨ ∃ c, body.cart = some c ∧ c.items = []) →
    action env = { status := 400, headers := getCorsHeaders env.origin,
                   success := some false, error := some "Cart is empty",
                   drafts := none, emailSent := none, emailError := none } := by
  intro hc hp hcart
  unfold action
  rcases hcart with h | ⟨c, h, hi⟩
  · simp [hc, hp, h, sendError]
  · simp [hc, hp, h, hi, sendError]

/-- C9 witness: a concrete request whose cart has an empty items list gets the
400 Cart-is-empty response. -/
theorem empty_cart_400_witness :
    action emptyCartEnv =
      { status := 400, headers := getCorsHeaders (some "https://store.example"),
        success := some false, error := some "Cart is empty",
        drafts := none, emailSent := none, emailError := none } := by
  exact empty_cart_400 emptyCartEnv emptyCartBody rfl rfl (Or.inr ⟨_, rfl, rfl⟩)

/-- C4: when every draft creation resolves, the customer has an email, and the
email send throws, the action still answers 200 with `success:true` and the
full created drafts array; the failure is only reported as `emailSent:false`
plus the message in `emailError` — never a 500, and the drafts are not
removed. -/
theorem email_failure_is_soft (env : ActionEnv) (body : Body) (cart : Cart)
    (drafts : List CreatedDraft) (msg : String) :
    env.configOk = true → env.parsedBody = some body → body.cart = some cart →
    cart.items ≠ [] →
    createAll env.create (composeDraftOrderInputs env.setting cart body.customer
      body.address body.billingAddress body.useShipping) = .ok drafts →
    jsTruthyStrOpt body.customer.email = true →
    env.emailOutcome = .error msg →
    action env = { status := 200, headers := getCorsHeaders env.origin,
                   success := some true, error := none, drafts := some drafts,
                   emailSent := some false, emailError := some (some msg) } := by
  intro hc hp hcart hne hcreate hemail hout
  unfold action
  rcases hitems : cart.items with _ | ⟨a, l⟩
  · exact absurd hitems hne
  · simp [hc, hp, hcart, hitems, hcreate, hemail, hout]

/-- C4 witness: a concrete single-mode request where the one creation resolves
and the email send throws still gets the 200 success response with the
draft. -/
theorem email_failure_is_soft_witness :
    action emailFailEnv =
      { status := 200, headers := getCorsHeaders none,
        success := some true, error := none, drafts := some [sampleDraft],
        emailSent := some false, emailError := some (some "SMTP timed out") } := by
  exact email_failure_is_soft emailFailEnv emailFailBody sampleCart [sampleDraft]
    "SMTP timed out" rfl rfl rfl (by simp [sampleCart]) rfl rfl rfl

/-- C5 counterexample: `createDraft` never inspects the HTTP status — a
response with non-success status 500 whose JSON body contains a successful
`draftOrderCreate` payload is accepted and the draft returned; no error is
raised. -/
theorem createDraft_ignores_http_status :
    createDraftResult (.response 500
      { errors := none,
        dataField := some { draftOrder := some sampleDraft, userErrors := [] } }) =
      .ok (some sampleDraft) := rfl

/-- C5 (amended): a rejected fetch or an unparsable body propagates as a single
transport error; a present top-level error list raises exactly one error
serializing it; a non-empty user-error list raises exactly one error
serializing it; and whenever any creation attempt of a request fails, the
endpoint answers 500 carrying that error message, with no partial-success
response. The HTTP status code of the upstream response is never
inspected. -/
theorem create_failure_policy (m : String) (status : Nat) (gbody : GraphQLBody)
    (errs : List String) (payload : DraftOrderCreatePayload)
    (env : ActionEnv) (b : Body) (cart : Cart) (emsg : String) :
    (createDraftResult (.networkError m) = .error (.transport m) ∧
     (CreateDraftError.transport m).message = m) ∧
    (createDraftResult (.jsonError status m) = .error (.transport m)) ∧
    (gbody.errors = some errs →
      createDraftResult (.response status gbody) = .error (.serialized (.inl errs)) ∧
      (CreateDraftError.serialized (.inl errs)).message = stringifyErrors errs) ∧
    (gbody.errors = none → gbody.dataField = some payload →
      payload.userErrors ≠ [] →
      createDraftResult (.response status gbody) =
        .error (.serialized (.inr payload.userErrors)) ∧
      (CreateDraftError.serialized (.inr payload.userErrors)).message =
        stringifyUserErrors payload.userErrors) ∧
    (env.configOk = true → env.parsedBody = some b → b.cart = some cart →
      cart.items ≠ [] →
      createAll env.create (composeDraftOrderInputs env.setting cart b.customer
        b.address b.billingAddress b.useShipping) = .error emsg →
      action env = sendError env.origin emsg 500) := by
  refine ⟨⟨rfl, rfl⟩, rfl, ?_, ?_, ?_⟩
  · intro h
    refine ⟨?_, rfl⟩
    simp [createDraftResult, h]
  · intro h1 h2 h3
    refine ⟨?_, rfl⟩
    rcases h4 : payload.userErrors with _ | ⟨u, us⟩
    · exact absurd h4 h3
    · simp [createDraftResult, h1, h2, h4]
  · intro hc hp hcart hne hcreate
    unfold action
    rcases hitems : cart.items with _ | ⟨a, l⟩
    · exact absurd hitems hne
    · simp [hc, hp, hcart, hitems, hcreate]

/-- C5 witness: a request whose (single) creation attempt rejects is answered
with a 500 carrying the rejection's message. -/
theorem create_failure_policy_witness :
    action createFailEnv = sendError none "upstream rejected" 500 := by
  exact (create_failure_policy "m" 200 { errors := none, dataField := none } []
    { draftOrder := none, userErrors := [] } createFailEnv createFailBody
    sampleCart "upstream rejected").2.2.2.2
    rfl rfl rfl (by simp [sampleCart]) rfl

/-- C8 counterexample: the 405 response for a non-OPTIONS loader request
carries no headers at all — in particular no Access-Control-Allow-Origin
echoing the request's Origin. -/
theorem loader_405_lacks_cors :
    loader "GET" (some "https://store.example") =
      { status := 405, headers := [], body := some "Method Not Allowed" } := rfl

/-- C8 (amended): every response of the action — in particular its 400 and 500
failures, all built by `sendError` — carries the CORS headers, whose
allow-origin echoes the request's Origin; the loader's OPTIONS response
carries them too; but the 405 response for any other method is built bare,
with no CORS headers. -/
theorem failure_cors_headers (env : ActionEnv) (origin : Option String)
    (msg : String) (status : Nat) (method : String) :
    ((action env).headers = getCorsHeaders env.origin) ∧
    ((sendError origin msg status).headers = getCorsHeaders origin) ∧
    ((getCorsHeaders origin).head? =
      some ("Access-Control-Allow-Origin", jsOrOpt origin "*")) ∧
    ((loader "OPTIONS" origin).headers = getCorsHeaders origin) ∧
    (method ≠ "OPTIONS" →
      loader method origin =
        { status := 405, headers := [], body := some "Method Not Allowed" }) := by
  refine ⟨?_, rfl, rfl, rfl, ?_⟩
  · unfold action
    repeat' split
    all_goals rfl
  · intro h
    unfold loader
    rw [if_neg h]

/-- C8 witness: a GET request to the route gets the bare 405 response. -/
theorem failure_cors_headers_witness :
    loader "GET" (some "o") =
      { status := 405, headers := [], body := some "Method Not Allowed" } := by
  exact (failure_cors_headers emptyCartEnv (some "o") "m" 500 "GET").2.2.2.2 (by decide)

/-- After any `getCachedSettings` call the cache slot holds exactly the
returned row. -/
theorem getCachedSettings_caches_result (db : Db) (st : CacheState) (now : Nat)
    (shop : String) :
    (getCachedSettings db st now shop).state.settingsCache =
      some (getCachedSettings db st now shop).setting := by
  unfold getCachedSettings
  rcases h : st.settingsCache with _ | c
  · simp [h]
  · simp only [h]
    split
    · exact h
    · rfl

/-- A cache hit: matching shop and age below the TTL returns the cached row
with the state untouched and no store lookup. -/
theorem getCachedSettings_hit (db : Db) (st : CacheState) (now : Nat)
    (shop : String) (cached : Setting) (h : st.settingsCache = some cached)
    (hs : cached.shop = shop) (ht : now - st.settingsCacheTime < CACHE_TTL) :
    getCachedSettings db st now shop =
      { setting := cached, state := st, storeLookups := 0 } := by
  unfold getCachedSettings
  simp only [h]
  rw [if_pos ⟨hs, ht⟩]

/-- A cache miss (no entry, other shop, or expired) performs one
fetch-or-create and stamps the cache with the current time. -/
theorem getCachedSettings_miss (db : Db) (st : CacheState) (now : Nat)
    (shop : String) (cached : Setting)
    (h : st.settingsCache = none ∨
      (st.settingsCache = some cached ∧
        (cached.shop ≠ shop ∨ CACHE_TTL ≤ now - st.settingsCacheTime))) :
    getCachedSettings db st now shop =
      { setting := dbFetchOrCreate db shop,
        state := { settingsCache := some (dbFetchOrCreate db shop),
                   settingsCacheTime := now },
        storeLookups := 1 } := by
  unfold getCachedSettings
  rcases h with h | ⟨h, hmiss⟩
  · simp [h]
  · simp only [h]
    rw [if_neg]
    rintro ⟨h1, h2⟩
    rcases hmiss with hm | hm
    · exact hm h1
    · exact absurd h2 (not_lt.mpr hm)

/-- C6: a get whose cached entry matches the shop and is younger than the
5-minute TTL returns the cached row unchanged with no store lookup; any
other get (no entry, other shop, or expired) performs exactly one
fetch-or-create — creating a zero-value default row when the store has
none — and stamps the cache with the current time; consequently a second get
for the same shop within the TTL of a first get returns the first get's row
with the state unchanged and no lookup. -/
theorem settings_cache_spec (db : Db) (st : CacheState) (now now2 : Nat)
    (shop : String) (cached : Setting) :
    (st.settingsCache = some cached → cached.shop = shop →
      now - st.settingsCacheTime < CACHE_TTL →
      getCachedSettings db st now shop =
        { setting := cached, state := st, storeLookups := 0 }) ∧
    ((st.settingsCache = none ∨
      (st.settingsCache = some cached ∧
        (cached.shop ≠ shop ∨ CACHE_TTL ≤ now - st.settingsCacheTime))) →
      getCachedSettings db st now shop =
        { setting := dbFetchOrCreate db shop,
          state := { settingsCache := some (dbFetchOrCreate db shop),
                     settingsCacheTime := now },
          storeLookups := 1 }) ∧
    (db shop = none → dbFetchOrCreate db shop = defaultSetting shop) ∧
    ((getCachedSettings db st now shop).setting.shop = shop →
      now2 - (getCachedSettings db st now shop).state.settingsCacheTime < CACHE_TTL →
      getCachedSettings db (getCachedSettings db st now shop).state now2 shop =
        { setting := (getCachedSettings db st now shop).setting,
          state := (getCachedSettings db st now shop).state,
          storeLookups := 0 }) := by
  refine ⟨?_, ?_, ?_, ?_⟩
  · intro h hs ht
    exact getCachedSettings_hit db st now shop cached h hs ht
  · intro h
    exact getCachedSettings_miss db st now shop cached h
  · intro h
    unfold dbFetchOrCreate
    rw [h]
  · intro hs ht
    exact getCachedSettings_hit db _ now2 shop _
      (getCachedSettings_caches_result db st now shop) hs ht

/-- C6 witness: a second get 1000 ms after a cached entry was stored returns
the cached row with no store lookup. -/
theorem settings_cache_spec_witness :
    getCachedSettings (fun _ => none)
      { settingsCache := some (defaultSetting "s.myshopify.com"),
        settingsCacheTime := 1000 }
      2000 "s.myshopify.com" =
      { setting := defaultSetting "s.myshopify.com",
        state := { settingsCache := some (defaultSetting "s.myshopify.com"),
                   settingsCacheTime := 1000 },
        storeLookups := 0 } := by
  exact (settings_cache_spec (fun _ => none) _ 2000 0 "s.myshopify.com"
    (defaultSetting "s.myshopify.com")).1 rfl rfl (by norm_num [CACHE_TTL])

/-- C7: when exactly one draft order was created, the composed email body's
dynamic content is only the greeting name and the fixed message — it is
independent of the created order, so it contains neither the order's
line-item list nor a payment link to its invoice URL (the `itemsHtml` string
built from the line items is never interpolated into the template, and
`invoiceUrl` appears nowhere in it). -/
theorem single_order_email_content (customer : Customer) (d d' : CreatedDraft) :
    emailHtmlSlots customer [d] =
      [jsOrOpt customer.first_name "there", emailOrderMessage] ∧
    emailHtmlSlots customer [d] = emailHtmlSlots customer [d'] := ⟨rfl, rfl⟩
